import Mathlib

/-!
# Verification of the pinterest-login crate's login orchestration

Shallow embedding of the login flow of the `pinterest-login` crate:
the URL success/failure oracle and outcome check of
`DefaultBrowserLoginBot::check_login` (src/login_bot.rs), the form-fill
retry loop of `fill_login_form`, the click/poll phases of
`submit_login_form`, and the orchestrating `login` function together
with its cookie harvest and background event-drain task (src/lib.rs).

Driver calls (chromiumoxide) are external collaborators: each call's
outcome is a parameter of the model (an `Except` value or a trace of
such values), and the embedded functions compose those outcomes exactly
as the Rust source composes its `?`-propagated results.
-/

namespace PinterestLogin

/-- Character strings, modelled as lists of characters. -/
abbrev Str := List Char

/-- Shorthand for the character data of a string literal. -/
def str (s : String) : Str := s.data

/-- Abstract chromiumoxide protocol error (`chromiumoxide::error::CdpError`),
an external type; only its identity matters to the login flow. -/
abbrev CdpE := Nat

/-- The crate's error enum `PinterestLoginError` (src/lib.rs). -/
inductive PinterestLoginError where
  /-- Variant `CdpError(#[from] chromiumoxide::error::CdpError)`. -/
  | CdpError (e : CdpE)
  /-- Variant `BrowserConfigBuildError(String)`. -/
  | BrowserConfigBuildError (msg : Str)
  /-- Variant `AuthenticationError`. -/
  | AuthenticationError
deriving DecidableEq

deriving instance DecidableEq for Except

/-- The fixed login endpoint `PINTEREST_LOGIN_URL` (src/lib.rs). -/
def PINTEREST_LOGIN_URL : Str := str "https://pinterest.com/login"

/-- The four concrete expansions of the anchored group
`(https?://(?:www\.)?pinterest\.com/login)` of the regex in
`check_login` (src/login_bot.rs line 195). -/
def loginUrlPrefixes : List Str :=
  [ str "https://www.pinterest.com/login"
  , str "https://pinterest.com/login"
  , str "http://www.pinterest.com/login"
  , str "http://pinterest.com/login" ]

/-- Semantics of `regex!(r"^(https?:\/\/(?:www\.)?pinterest\.com\/login).*$").is_match(url)`
(src/login_bot.rs line 195-196): the URL must start with one of the four
expansions of the group, and the rest of the URL is consumed by `.*$` —
any characters except a newline, up to the end of the haystack. -/
def loginUrlRegexMatch (url : Str) : Bool :=
  loginUrlPrefixes.any fun p =>
    List.isPrefixOf p url && !((url.drop p.length).contains '\n')

/-- Embedding of `DefaultBrowserLoginBot::check_login` (src/login_bot.rs lines 177-208).
`nav` is the outcome of `page.wait_for_navigation().await`, `urlr` the
outcome of `.url().await` on the returned page; both propagate with `?`.
`Ok(None)` and a URL matching the login-page regex both yield
`AuthenticationError`; any other URL yields success. -/
def check_login (nav : Except CdpE Unit) (urlr : Except CdpE (Option Str)) :
    Except PinterestLoginError Unit :=
  match nav with
  | .error e => .error (.CdpError e)
  | .ok () =>
    match urlr with
    | .error e => .error (.CdpError e)
    | .ok none => .error .AuthenticationError
    | .ok (some url) =>
      if loginUrlRegexMatch url then .error .AuthenticationError
      else .ok ()

/-- Models `chromiumoxide::layout::BoundingBox`; the login flow only compares
coordinates for equality, so they are abstracted to integers. -/
structure BoundingBox where
  x : Int
  y : Int
  width : Int
  height : Int
deriving DecidableEq

/-- What one evaluation of the post-click poll condition of
`submit_login_form` observes: whether `page.find_element("input#email")`
succeeds, and the outcome of `bounding_box()` for each clicked button, in
click order. -/
structure SubmitPollState where
  emailPresent : Bool
  boxes : List (Except CdpE BoundingBox)
deriving DecidableEq

/-- The nested helper `cheack` of `submit_login_form` (src/login_bot.rs lines
156-164): walk the saved baselines paired with the fresh `bounding_box()`
outcome of the same button; a driver error propagates, a changed `x` or `y`
yields `Ok(false)`, otherwise `Ok(true)`. -/
def cheack : List (BoundingBox × Except CdpE BoundingBox) →
    Except PinterestLoginError Bool
  | [] => .ok true
  | (b, nbr) :: rest =>
    match nbr with
    | .error e => .error (.CdpError e)
    | .ok nb => if nb.x ≠ b.x ∨ nb.y ≠ b.y then .ok false else cheack rest

/-- How one run of the poll loop of `submit_login_form` ends: the condition
became false at evaluation `k`, or `cheack` propagated a driver error at
evaluation `k`. -/
inductive PollOutcome where
  | exited (k : Nat)
  | errored (k : Nat) (e : PinterestLoginError)
deriving DecidableEq

/-- The `while` loop of `submit_login_form` (src/login_bot.rs lines 151-168):
the condition is `find_element("input#email").is_ok() && cheack(..)?`, with
Rust short-circuit evaluation; while it holds the loop sleeps and re-polls.
`trace k` is what the `k`-th condition evaluation observes; `fuel` bounds the
number of evaluations modelled (`none` = still polling after `fuel` rounds). -/
def pollLoop (ob : List BoundingBox) (trace : Nat → SubmitPollState) :
    Nat → Nat → Option PollOutcome
  | _, 0 => none
  | k, fuel+1 =>
    if (trace k).emailPresent then
      match cheack (ob.zip (trace k).boxes) with
      | .error e => some (.errored k e)
      | .ok true => pollLoop ob trace (k+1) fuel
      | .ok false => some (.exited k)
    else some (.exited k)

/-- The poll loop's continuation condition: the identifier input is still
present and every clicked button's fresh bounding box equals its baseline. -/
def pollContinues (ob : List BoundingBox) (s : SubmitPollState) : Bool :=
  s.emailPresent &&
    match cheack (ob.zip s.boxes) with
    | .ok true => true
    | _ => false

/-- Baseline for the C4 witness scenario: one clicked button at (10, 20). -/
def pollWitnessBaseline : List BoundingBox :=
  [⟨10, 20, 40, 12⟩]

/-- Trace for the C4 witness scenario: at poll 0 the button is still at its
baseline position; from poll 1 on its `x` coordinate has shifted by one pixel
while the identifier input remains present (no navigation). -/
def pollWitnessTrace : Nat → SubmitPollState := fun k =>
  if k = 0 then ⟨true, [Except.ok ⟨10, 20, 40, 12⟩]⟩
  else ⟨true, [Except.ok ⟨11, 20, 40, 12⟩]⟩

/-- One element returned by `page.find_xpaths("//*[contains(text(), 'Log in')]")`
in `submit_login_form`, with the driver outcomes of the two calls the click
phase makes on it. -/
structure SubmitElement where
  clickResult : Except CdpE Unit
  boxResult : Except CdpE BoundingBox
deriving DecidableEq

/-- Observable driver actions of the click phase, indexed by element order. -/
inductive SubmitAction where
  | click (i : Nat)
  | queryBox (i : Nat)
deriving DecidableEq

/-- The click phase of `submit_login_form` (src/login_bot.rs lines 142-149):
for each matched element, `e.click().await?` is dispatched first and only
afterwards does `old_bounds.push(e.bounding_box().await?)` record the
baseline.  Returns the emitted driver-action log together with the collected
baseline list (or the first propagated error); `i` is the index of the first
element of the remaining list. -/
def clickPhaseAux (i : Nat) :
    List SubmitElement → List SubmitAction × Except PinterestLoginError (List BoundingBox)
  | [] => ([], .ok [])
  | e :: rest =>
    match e.clickResult with
    | .error err => ([.click i], .error (.CdpError err))
    | .ok () =>
      match e.boxResult with
      | .error err => ([.click i, .queryBox i], .error (.CdpError err))
      | .ok b =>
        let r := clickPhaseAux (i+1) rest
        (.click i :: .queryBox i :: r.1, r.2.map fun bs => b :: bs)

/-- The driver-action log of a fully successful click phase: for each element,
its click strictly precedes its bounding-box capture. -/
def clickLog : Nat → Nat → List SubmitAction
  | _, 0 => []
  | i, n+1 => .click i :: .queryBox i :: clickLog (i+1) n

/-- The driver outcomes `fill_login_form` can observe: attempt `k` of the
`input#email` lookup loop, then the calls made once the element is found
(`e.type_str(email)`, `find_element("input#password")`, `.focus()`,
`.type_str(password)`). -/
structure FillTrace where
  emailFind : Nat → Except CdpE Unit
  typeEmail : Except CdpE Unit
  passwordFind : Except CdpE Unit
  passwordFocus : Except CdpE Unit
  typePassword : Except CdpE Unit

/-- The retry loop of `fill_login_form` (src/login_bot.rs lines 98-104): keep
calling `page.find_element("input#email")`, sleeping `WAIT_DELAY` between
failed attempts, until a lookup succeeds.  `fuel` bounds the number of
attempts modelled; `some k` means attempt `k` succeeded. -/
def emailFindLoop (f : Nat → Except CdpE Unit) : Nat → Nat → Option Nat
  | _, 0 => none
  | k, fuel+1 =>
    match f k with
    | .ok () => some k
    | .error _ => emailFindLoop f (k+1) fuel

/-- The straight-line remainder of `fill_login_form` once the email element is
found (src/login_bot.rs lines 106-123): `e.type_str(email)?`, then
`page.find_element("input#password")?.focus()?.type_str(password)?` — the
password lookup happens exactly once and each error propagates with `?`. -/
def afterEmailSteps (t : FillTrace) : Except PinterestLoginError Unit :=
  match t.typeEmail with
  | .error e => .error (.CdpError e)
  | .ok () =>
    match t.passwordFind with
    | .error e => .error (.CdpError e)
    | .ok () =>
      match t.passwordFocus with
      | .error e => .error (.CdpError e)
      | .ok () =>
        match t.typePassword with
        | .error e => .error (.CdpError e)
        | .ok () => .ok ()

/-- Embedding of `DefaultBrowserLoginBot::fill_login_form` (src/login_bot.rs lines 83-129):
the unbounded email-lookup retry loop followed by the straight-line fill
steps.  `none` means the loop is still retrying after `fuel` attempts. -/
def fill_login_form (t : FillTrace) (fuel : Nat) :
    Option (Except PinterestLoginError Unit) :=
  match emailFindLoop t.emailFind 0 fuel with
  | none => none
  | some _ => some (afterEmailSteps t)

/-- Trace for the C7 witness scenario: the email field appears at the second
lookup attempt, the password lookup fails with driver error 5. -/
def fillWitnessTrace : FillTrace :=
  ⟨fun k => if k = 0 then Except.error 0 else Except.ok (),
   Except.ok (), Except.error 5, Except.ok (), Except.ok ()⟩

/-- A cookie as returned by `page.get_cookies()`: the login flow reads only
its `name` and `value` fields. -/
structure Cookie where
  name : Str
  value : Str
deriving DecidableEq

/-- Models `HashMap::insert` on the name→value cookie map: replace the value of an
existing binding for the key, otherwise add a new binding. -/
def insertCookie : List (Str × Str) → Str → Str → List (Str × Str)
  | [], k, v => [(k, v)]
  | p :: rest, k, v =>
    if p.1 = k then (k, v) :: rest else p :: insertCookie rest k v

/-- The cookie harvest of `login` (src/lib.rs lines 254-276): fold the cookie
sequence returned by `page.get_cookies()` into the name→value map, inserting
each cookie in order. -/
def harvestCookies (cs : List Cookie) : List (Str × Str) :=
  List.foldl (fun m c => insertCookie m c.name c.value) [] cs

/-- Lookup in the cookie map model. -/
def lookupCookie : List (Str × Str) → Str → Option Str
  | [], _ => none
  | p :: rest, k => if p.1 = k then some p.2 else lookupCookie rest k

/-- The value of the last cookie named `k` in the harvested sequence. -/
def lastCookieValue (cs : List Cookie) (k : Str) : Option Str :=
  List.foldl (fun acc c => if c.name = k then some c.value else acc) none cs

/-- Embedding of `DefaultBrowserConfigBuilder::build_browser_config` (src/config_builder.rs
lines 73-112): the underlying chromiumoxide `BrowserConfigBuilder::build`
returns its error as a `String`, which is wrapped via
`map_err(PinterestLoginError::BrowserConfigBuildError)`. -/
def build_browser_config (raw : Except Str Unit) : Except PinterestLoginError Unit :=
  match raw with
  | .error msg => .error (.BrowserConfigBuildError msg)
  | .ok () => .ok ()

/-- The outcomes of every driver and bot call `login` makes, in program order
(src/lib.rs lines 188-298).  The bot steps and the config build return
`crate::Result`, so they can carry any `PinterestLoginError`; the remaining
calls are chromiumoxide calls whose errors are wrapped in `CdpError`. -/
structure LoginEnv where
  buildConfig : Except PinterestLoginError Unit
  launch : Except CdpE Unit
  startIncognitoContext : Except CdpE Unit
  newPage : Except CdpE Unit
  disableLog : Except CdpE Unit
  disableDebugger : Except CdpE Unit
  enableStealthMode : Except CdpE Unit
  goto : Except CdpE Unit
  waitForNavigation : Except CdpE Unit
  fillLoginForm : Except PinterestLoginError Unit
  submitLoginForm : Except PinterestLoginError Unit
  checkLogin : Except PinterestLoginError Unit
  getCookies : Except CdpE (List Cookie)
deriving DecidableEq

/-- Resource observables of one `login` run, read at the moment `login`
returns: whether `Browser::launch` succeeded, whether the event-drain task
was spawned, and whether that task is still running. -/
structure LoginObs where
  browserLaunched : Bool
  drainSpawned : Bool
  drainRunning : Bool
deriving DecidableEq

/-- The orchestrating `login` function (src/lib.rs lines 188-298).  The event
handler returned by `Browser::launch` is moved into a task spawned right
after the launch succeeds; that task loops draining events forever and is
cancelled (`handle.cancel()` / `handle.abort()`) only after the cookie map
has been built — every earlier `?` returns without reaching the cancel, and
dropping the join handle detaches the task rather than stopping it. -/
def login (env : LoginEnv) :
    Except PinterestLoginError (List (Str × Str)) × LoginObs :=
  match env.buildConfig with
  | .error e => (.error e, ⟨false, false, false⟩)
  | .ok () =>
  match env.launch with
  | .error e => (.error (.CdpError e), ⟨false, false, false⟩)
  | .ok () =>
  match env.startIncognitoContext with
  | .error e => (.error (.CdpError e), ⟨true, true, true⟩)
  | .ok () =>
  match env.newPage with
  | .error e => (.error (.CdpError e), ⟨true, true, true⟩)
  | .ok () =>
  match env.disableLog with
  | .error e => (.error (.CdpError e), ⟨true, true, true⟩)
  | .ok () =>
  match env.disableDebugger with
  | .error e => (.error (.CdpError e), ⟨true, true, true⟩)
  | .ok () =>
  match env.enableStealthMode with
  | .error e => (.error (.CdpError e), ⟨true, true, true⟩)
  | .ok () =>
  match env.goto with
  | .error e => (.error (.CdpError e), ⟨true, true, true⟩)
  | .ok () =>
  match env.waitForNavigation with
  | .error e => (.error (.CdpError e), ⟨true, true, true⟩)
  | .ok () =>
  match env.fillLoginForm with
  | .error e => (.error e, ⟨true, true, true⟩)
  | .ok () =>
  match env.submitLoginForm with
  | .error e => (.error e, ⟨true, true, true⟩)
  | .ok () =>
  match env.checkLogin with
  | .error e => (.error e, ⟨true, true, true⟩)
  | .ok () =>
  match env.getCookies with
  | .error e => (.error (.CdpError e), ⟨true, true, true⟩)
  | .ok c => (.ok (harvestCookies c), ⟨true, true, false⟩)

/-- A driver-call outcome as propagated by `?` inside `login`. -/
def cdpStep (r : Except CdpE Unit) : Except PinterestLoginError Unit :=
  match r with
  | .error e => .error (.CdpError e)
  | .ok () => .ok ()

/-- The `?`-propagated outcomes of the steps of `login`, in program order. -/
def loginSteps (env : LoginEnv) : List (Except PinterestLoginError Unit) :=
  [ env.buildConfig
  , cdpStep env.launch
  , cdpStep env.startIncognitoContext
  , cdpStep env.newPage
  , cdpStep env.disableLog
  , cdpStep env.disableDebugger
  , cdpStep env.enableStealthMode
  , cdpStep env.goto
  , cdpStep env.waitForNavigation
  , env.fillLoginForm
  , env.submitLoginForm
  , env.checkLogin
  , cdpStep (match env.getCookies with | .error e => .error e | .ok _ => .ok ()) ]

/-- Models `Result::is_ok` on a step outcome. -/
def exceptIsOk {α β : Type} (r : Except α β) : Bool :=
  match r with
  | .ok _ => true
  | .error _ => false

/-- The first error in a sequence of step outcomes. -/
def firstError : List (Except PinterestLoginError Unit) → Option PinterestLoginError
  | [] => none
  | .error e :: _ => some e
  | .ok () :: rest => firstError rest

/-- The first error `login` encounters, if any. -/
def firstFailure (env : LoginEnv) : Option PinterestLoginError :=
  firstError (loginSteps env)

/-- Environment in which every call succeeds and the page reports one
session cookie. -/
def loginEnvAllOk : LoginEnv :=
  ⟨Except.ok (), Except.ok (), Except.ok (), Except.ok (), Except.ok (),
   Except.ok (), Except.ok (), Except.ok (), Except.ok (), Except.ok (),
   Except.ok (), Except.ok (), Except.ok [⟨str "_pinterest_sess", str "tok"⟩]⟩

/-- Environment identical to `loginEnvAllOk` except that
`browser.start_incognito_context()` fails with driver error 3 — the first
call after the drain task has been spawned. -/
def loginEnvIncognitoFails : LoginEnv :=
  ⟨Except.ok (), Except.ok (), Except.error 3, Except.ok (), Except.ok (),
   Except.ok (), Except.ok (), Except.ok (), Except.ok (), Except.ok (),
   Except.ok (), Except.ok (), Except.ok [⟨str "_pinterest_sess", str "tok"⟩]⟩

/-- Environment in which the browser-config build fails with the message
`"invalid config"`. -/
def loginEnvBadConfig : LoginEnv :=
  ⟨build_browser_config (Except.error (str "invalid config")), Except.ok (),
   Except.ok (), Except.ok (), Except.ok (), Except.ok (), Except.ok (),
   Except.ok (), Except.ok (), Except.ok (), Except.ok (), Except.ok (),
   Except.ok [⟨str "_pinterest_sess", str "tok"⟩]⟩

/-- Models the capacity of the Rust std `HashMap` (hashbrown) that `login`
creates with `with_capacity(MAP_CAPACITY)`, `MAP_CAPACITY = 7`: the table
starts with 8 buckets at load factor 7/8, i.e. capacity exactly 7, and a
resize doubles the bucket count until the capacity reaches the entry count.
`capGrow n cap fuel` doubles `cap` until it reaches `n`. -/
def capGrow (n : Nat) : Nat → Nat → Nat
  | cap, 0 => cap
  | cap, fuel+1 => if n ≤ cap then cap else capGrow n (cap * 2) fuel

/-- The capacity of the cookie map after holding `n` distinct entries,
starting from the initial capacity 7 reserved by `login`. -/
def cookieMapCapacityAfter (n : Nat) : Nat :=
  capGrow n 7 n

/-- Three cookies in which the name `a` occurs twice with different values:
the harvest must keep the later value. -/
def dupNameCookies : List Cookie :=
  [⟨str "a", str "1"⟩, ⟨str "b", str "2"⟩, ⟨str "a", str "3"⟩]

/-- Eight cookies with pairwise-distinct names: inserting them forces the
cookie map past its initially reserved capacity of 7. -/
def eightDistinctCookies : List Cookie :=
  [⟨str "a", str "1"⟩, ⟨str "b", str "2"⟩, ⟨str "c", str "3"⟩,
   ⟨str "d", str "4"⟩, ⟨str "e", str "5"⟩, ⟨str "f", str "6"⟩,
   ⟨str "g", str "7"⟩, ⟨str "h", str "8"⟩]

end PinterestLogin

namespace PinterestLogin

/-- C1: the URL-pattern oracle of `check_login` classifies exactly the URLs
extending one of the four scheme/`www.` expansions of
`https?://(www.)?pinterest.com/login` by a newline-free suffix as "still on
login page".  The three positive examples classify as still on the login
page and `https://pinterest.com/home` as navigated away — but
`https://pinterest.com/loginhelp` also classifies as "still on login page":
the regex ends in `.*` and performs a plain textual prefix match, not a
path-segment match. -/
theorem loginUrlOracle_values :
    loginUrlRegexMatch (str "https://pinterest.com/login") = true ∧
    loginUrlRegexMatch (str "https://www.pinterest.com/login?x=1") = true ∧
    loginUrlRegexMatch (str "http://pinterest.com/login/") = true ∧
    loginUrlRegexMatch (str "https://pinterest.com/home") = false ∧
    loginUrlRegexMatch (str "https://pinterest.com/loginhelp") = true ∧
    (∀ url : Str, loginUrlRegexMatch url = true ↔
      ∃ p ∈ loginUrlPrefixes, List.isPrefixOf p url = true ∧
        (url.drop p.length).contains '\n' = false) := by
  refine ⟨by decide, by decide, by decide, by decide, by decide, ?_⟩
  intro url
  simp [loginUrlRegexMatch]

/-- C1 counterexample: the claim states that `https://pinterest.com/loginhelp`
classifies as "navigated away" (check_login succeeds on it); the code
classifies it as "still on login page" and returns `AuthenticationError`. -/
theorem loginUrlOracle_loginhelp_counterexample :
    check_login (Except.ok ()) (Except.ok (some (str "https://pinterest.com/loginhelp"))) =
      Except.error PinterestLoginError.AuthenticationError := by
  decide

/-- C3: given a successful navigation wait, `check_login` returns
`AuthenticationError` exactly when the URL call yields `Ok(None)` or a URL
matching the login-page pattern; every other obtained URL yields `Ok(())`;
and an unobtainable (`None`) URL is never mapped to a transport (`CdpError`)
error. -/
theorem check_login_authentication_iff (urlr : Except CdpE (Option Str)) :
    (check_login (Except.ok ()) urlr = Except.error PinterestLoginError.AuthenticationError ↔
      urlr = Except.ok none ∨
        ∃ u, urlr = Except.ok (some u) ∧ loginUrlRegexMatch u = true) ∧
    (∀ u, urlr = Except.ok (some u) → loginUrlRegexMatch u = false →
      check_login (Except.ok ()) urlr = Except.ok ()) ∧
    (∀ e, check_login (Except.ok ()) (Except.ok none) ≠
      Except.error (PinterestLoginError.CdpError e)) := by
  refine ⟨?_, ?_, ?_⟩
  · match urlr with
    | .error e => simp [check_login]
    | .ok none => simp [check_login]
    | .ok (some u) =>
      by_cases hm : loginUrlRegexMatch u = true
      · simp [check_login, hm]
      · simp [check_login, hm]
  · intro u hu hm
    subst hu
    simp [check_login, hm]
  · intro e
    simp [check_login]

/-- Witness for C3 at a concrete input: the URL `https://pinterest.com/home`
is obtained, does not match the login pattern, and `check_login` succeeds. -/
theorem check_login_authentication_iff_witness :
    check_login (Except.ok ()) (Except.ok (some (str "https://pinterest.com/home"))) =
      Except.ok () :=
  (check_login_authentication_iff (Except.ok (some (str "https://pinterest.com/home")))).2.1
    (str "https://pinterest.com/home") rfl (by decide)

theorem pollLoop_exits_aux (ob : List BoundingBox) (trace : Nat → SubmitPollState) :
    ∀ n k fuel,
      (∀ m, m < n → pollContinues ob (trace (k + m)) = true) →
      ((trace (k + n)).emailPresent = false ∨
        cheack (ob.zip (trace (k + n)).boxes) = Except.ok false) →
      n < fuel → pollLoop ob trace k fuel = some (PollOutcome.exited (k + n)) := by
  intro n
  induction n with
  | zero =>
    intro k fuel hcont hexit hfuel
    match fuel, hfuel with
    | f + 1, _ =>
      rw [Nat.add_zero] at hexit
      rcases hexit with h | h
      · simp [pollLoop, h]
      · by_cases hp : (trace k).emailPresent
        · simp [pollLoop, hp, h]
        · simp [pollLoop, hp]
  | succ n ih =>
    intro k fuel hcont hexit hfuel
    match fuel, hfuel with
    | f + 1, hfuel =>
      have hc := hcont 0 (Nat.succ_pos n)
      rw [Nat.add_zero] at hc
      rw [pollContinues, Bool.and_eq_true] at hc
      obtain ⟨hp, hm⟩ := hc
      have hcheck : cheack (ob.zip (trace k).boxes) = Except.ok true := by
        cases hchk : cheack (ob.zip (trace k).boxes) with
        | error e => rw [hchk] at hm; simp at hm
        | ok b => cases b with
          | true => rfl
          | false => rw [hchk] at hm; simp at hm
      have hk : k + (n + 1) = (k + 1) + n := by omega
      rw [hk] at hexit ⊢
      simp only [pollLoop, hp, hcheck, if_true]
      exact ih (k + 1) f
        (fun m hmn => by
          have := hcont (m + 1) (by omega)
          rwa [show k + (m + 1) = (k + 1) + m by omega] at this)
        hexit (by omega)

/-- C4: the post-submission poll loop of `submit_login_form` keeps polling
while the identifier input is present and every clicked element's bounding
box equals its baseline, and returns control at the first evaluation where
the identifier field is gone or some clicked element's position differs from
its baseline — so a position shift without navigation terminates the loop. -/
theorem submit_poll_loop_exits (ob : List BoundingBox) (trace : Nat → SubmitPollState)
    (n : Nat)
    (hcont : ∀ m, m < n → pollContinues ob (trace m) = true)
    (hexit : (trace n).emailPresent = false ∨
      cheack (ob.zip (trace n).boxes) = Except.ok false) :
    ∀ fuel, n < fuel → pollLoop ob trace 0 fuel = some (PollOutcome.exited n) := by
  intro fuel hfuel
  have := pollLoop_exits_aux ob trace n 0 fuel
    (fun m hm => by simpa using hcont m hm)
    (by simpa using hexit) hfuel
  simpa using this

/-- Witness for C4: a concrete trace in which the clicked button's `x`
coordinate shifts by one pixel at poll 1 while the identifier input stays
present; the loop exits at evaluation 1 instead of polling forever. -/
theorem submit_poll_loop_exits_witness :
    pollLoop pollWitnessBaseline pollWitnessTrace 0 3 = some (PollOutcome.exited 1) :=
  submit_poll_loop_exits pollWitnessBaseline pollWitnessTrace 1
    (by decide) (by decide) 3 (by decide)

/-- C5 counterexample: with a single matched element whose calls succeed, the
click phase emits `click 0` before `queryBox 0` — the baseline bounding box is
captured *after* the click is dispatched, not before as the claim states. -/
theorem submit_baseline_after_click_counterexample :
    (clickPhaseAux 0 [SubmitElement.mk (Except.ok ()) (Except.ok ⟨10, 20, 40, 12⟩)]).1 =
      [SubmitAction.click 0, SubmitAction.queryBox 0] ∧
    ¬ ((clickPhaseAux 0 [SubmitElement.mk (Except.ok ()) (Except.ok ⟨10, 20, 40, 12⟩)]).1.indexOf
        (SubmitAction.queryBox 0) <
      (clickPhaseAux 0 [SubmitElement.mk (Except.ok ()) (Except.ok ⟨10, 20, 40, 12⟩)]).1.indexOf
        (SubmitAction.click 0)) := by
  decide

theorem clickPhaseAux_all_ok (bs : List BoundingBox) :
    ∀ i, clickPhaseAux i (bs.map fun b => SubmitElement.mk (Except.ok ()) (Except.ok b)) =
      (clickLog i bs.length, Except.ok bs) := by
  induction bs with
  | nil => intro i; rfl
  | cons b rest ih =>
    intro i
    simp only [List.map_cons, clickPhaseAux, List.length_cons, clickLog, ih (i + 1)]
    rfl

theorem clickLog_contains_pair :
    ∀ n k j, j < n → ∃ pre post, clickLog k n =
      pre ++ SubmitAction.click (k + j) :: SubmitAction.queryBox (k + j) :: post := by
  intro n
  induction n with
  | zero => intro k j hj; omega
  | succ n ih =>
    intro k j hj
    cases j with
    | zero =>
      exact ⟨[], clickLog (k + 1) n, by simp [clickLog]⟩
    | succ j =>
      obtain ⟨pre, post, hpp⟩ := ih (k + 1) j (by omega)
      refine ⟨SubmitAction.click k :: SubmitAction.queryBox k :: pre, post, ?_⟩
      rw [clickLog, hpp]
      simp [show k + (j + 1) = (k + 1) + j by omega]

/-- C5 amended: when all driver calls succeed, every element matched by the
submit-control text selector is clicked (the action log covers all
`bs.length` elements) and each element's bounding box is captured as its
baseline immediately *after* its click is dispatched — `click i` precedes
`queryBox i` in the log — with the collected baselines being exactly the
boxes the driver reported, in click order. -/
theorem submit_click_phase_clicks_all (bs : List BoundingBox) :
    (clickPhaseAux 0 (bs.map fun b => SubmitElement.mk (Except.ok ()) (Except.ok b))).1 =
      clickLog 0 bs.length ∧
    (clickPhaseAux 0 (bs.map fun b => SubmitElement.mk (Except.ok ()) (Except.ok b))).2 =
      Except.ok bs ∧
    (∀ i, i < bs.length → ∃ pre post, clickLog 0 bs.length =
      pre ++ SubmitAction.click i :: SubmitAction.queryBox i :: post) := by
  refine ⟨?_, ?_, ?_⟩
  · rw [clickPhaseAux_all_ok bs 0]
  · rw [clickPhaseAux_all_ok bs 0]
  · intro i hi
    have := clickLog_contains_pair bs.length 0 i hi
    simpa using this

/-- Witness for C5 amended at a concrete input: a single matched element; the
log is `[click 0, queryBox 0]`, the baseline list holds the reported box, and
`click 0` precedes `queryBox 0`. -/
theorem submit_click_phase_clicks_all_witness :
    ∃ pre post, clickLog 0 ([(⟨10, 20, 40, 12⟩ : BoundingBox)].length) =
      pre ++ SubmitAction.click 0 :: SubmitAction.queryBox 0 :: post :=
  (submit_click_phase_clicks_all [⟨10, 20, 40, 12⟩]).2.2 0 (by decide)

theorem emailFindLoop_finds (f : Nat → Except CdpE Unit) :
    ∀ n k fuel, f (k + n) = Except.ok () →
      (∀ m, m < n → f (k + m) ≠ Except.ok ()) →
      n < fuel → emailFindLoop f k fuel = some (k + n) := by
  intro n
  induction n with
  | zero =>
    intro k fuel hok hm hfuel
    match fuel, hfuel with
    | g + 1, _ =>
      rw [Nat.add_zero] at hok
      simp [emailFindLoop, hok]
  | succ n ih =>
    intro k fuel hok hm hfuel
    match fuel, hfuel with
    | g + 1, hfuel =>
      have h0 := hm 0 (Nat.succ_pos n)
      rw [Nat.add_zero] at h0
      simp only [emailFindLoop]
      cases hfk : f k with
      | ok u => cases u; exact absurd hfk h0
      | error e =>
        have hk : k + (n + 1) = (k + 1) + n := by omega
        rw [hk]
        exact ih (k + 1) g
          (by rwa [hk] at hok)
          (fun m hmn => by
            have := hm (m + 1) (by omega)
            rwa [show k + (m + 1) = (k + 1) + m by omega] at this)
          (by omega)

/-- C7: `fill_login_form` retries the identifier-field lookup on a fixed
interval with no deadline at this layer — it completes (with a result
independent of the failed lookup attempts) exactly when some attempt
succeeds, and if no attempt ever succeeds it never returns; the secret
(password) field is looked up once, and a failed lookup of it propagates as
a driver (`CdpError`) error. -/
theorem fill_login_form_policy (t : FillTrace) :
    (∀ n, t.emailFind n = Except.ok () →
      (∀ m, m < n → t.emailFind m ≠ Except.ok ()) →
      ∀ fuel, n < fuel → fill_login_form t fuel = some (afterEmailSteps t)) ∧
    ((∀ k, t.emailFind k ≠ Except.ok ()) → ∀ fuel, fill_login_form t fuel = none) ∧
    (t.typeEmail = Except.ok () → ∀ e, t.passwordFind = Except.error e →
      afterEmailSteps t = Except.error (PinterestLoginError.CdpError e)) := by
  refine ⟨?_, ?_, ?_⟩
  · intro n hok hm fuel hfuel
    have h := emailFindLoop_finds t.emailFind n 0 fuel
      (by simpa using hok) (fun m hmn => by simpa using hm m hmn) hfuel
    rw [Nat.zero_add] at h
    simp [fill_login_form, h]
  · intro hnever fuel
    have h : ∀ g k, emailFindLoop t.emailFind k g = none := by
      intro g
      induction g with
      | zero => intro k; rfl
      | succ g ih =>
        intro k
        simp only [emailFindLoop]
        cases hfk : t.emailFind k with
        | ok u => cases u; exact absurd hfk (hnever k)
        | error e => exact ih (k + 1)
    simp [fill_login_form, h fuel 0]
  · intro hte e hpf
    simp [afterEmailSteps, hte, hpf]

/-- Witness for C7: the email field appears at the second lookup attempt and
the single password lookup fails with driver error 5 — `fill_login_form`
returns after two attempts and propagates the password error as `CdpError`. -/
theorem fill_login_form_policy_witness :
    fill_login_form fillWitnessTrace 2 = some (afterEmailSteps fillWitnessTrace) ∧
    afterEmailSteps fillWitnessTrace = Except.error (PinterestLoginError.CdpError 5) :=
  ⟨(fill_login_form_policy fillWitnessTrace).1 1 (by decide) (by decide) 2 (by decide),
   (fill_login_form_policy fillWitnessTrace).2.2 (by decide) 5 (by decide)⟩

theorem lookupCookie_insertCookie (m : List (Str × Str)) (k v k' : Str) :
    lookupCookie (insertCookie m k v) k' =
      if k' = k then some v else lookupCookie m k' := by
  induction m with
  | nil =>
    by_cases h : k' = k
    · subst h; simp [insertCookie, lookupCookie]
    · simp [insertCookie, lookupCookie, h, Ne.symm h]
  | cons p rest ih =>
    by_cases hp : p.1 = k
    · by_cases h : k' = k
      · subst h; simp [insertCookie, lookupCookie, hp]
      · simp [insertCookie, lookupCookie, hp, h, Ne.symm h]
    · by_cases h2 : p.1 = k'
      · have hk : ¬(k' = k) := fun hh => hp (by rw [h2, hh])
        simp [insertCookie, lookupCookie, hp, h2, hk]
      · simp [insertCookie, lookupCookie, hp, h2, ih]

theorem insertCookie_keys_subset (m : List (Str × Str)) (k v a : Str)
    (h : a ∈ (insertCookie m k v).map Prod.fst) :
    a = k ∨ a ∈ m.map Prod.fst := by
  induction m with
  | nil => simp [insertCookie] at h; exact Or.inl h
  | cons p rest ih =>
    by_cases hp : p.1 = k
    · simp only [insertCookie, hp, if_true, List.map_cons, List.mem_cons] at h
      rcases h with h | h
      · exact Or.inl h
      · exact Or.inr (by simp [h])
    · simp only [insertCookie, hp, if_false, List.map_cons, List.mem_cons] at h
      rcases h with h | h
      · exact Or.inr (by simp [h])
      · rcases ih h with h1 | h1
        · exact Or.inl h1
        · exact Or.inr (by simp [h1])

theorem insertCookie_keys_nodup (m : List (Str × Str)) (k v : Str)
    (h : (m.map Prod.fst).Nodup) :
    ((insertCookie m k v).map Prod.fst).Nodup := by
  induction m with
  | nil => simp [insertCookie]
  | cons p rest ih =>
    simp only [List.map_cons, List.nodup_cons] at h
    obtain ⟨hnp, hnd⟩ := h
    by_cases hp : p.1 = k
    · simp only [insertCookie, hp, if_true, List.map_cons, List.nodup_cons]
      exact ⟨by rw [← hp]; exact hnp, hnd⟩
    · simp only [insertCookie, hp, if_false, List.map_cons, List.nodup_cons]
      refine ⟨?_, ih hnd⟩
      intro hmem
      rcases insertCookie_keys_subset rest k v p.1 hmem with h1 | h1
      · exact hp h1
      · exact hnp h1

theorem harvest_fold_nodup (cs : List Cookie) :
    ∀ m : List (Str × Str), (m.map Prod.fst).Nodup →
      ((List.foldl (fun m c => insertCookie m c.name c.value) m cs).map Prod.fst).Nodup := by
  induction cs with
  | nil => intro m h; simpa using h
  | cons c rest ih =>
    intro m h
    simp only [List.foldl_cons]
    exact ih _ (insertCookie_keys_nodup m c.name c.value h)

theorem harvest_fold_lookup (cs : List Cookie) :
    ∀ (m : List (Str × Str)) (k : Str),
      lookupCookie (List.foldl (fun m c => insertCookie m c.name c.value) m cs) k =
        List.foldl (fun acc c => if c.name = k then some c.value else acc)
          (lookupCookie m k) cs := by
  induction cs with
  | nil => intro m k; rfl
  | cons c rest ih =>
    intro m k
    simp only [List.foldl_cons]
    rw [ih]
    congr 1
    rw [lookupCookie_insertCookie]
    by_cases h : k = c.name
    · simp [h]
    · simp [h, Ne.symm h]

/-- C8: the cookie harvest folds the sequence of cookies the page reports
into a name→value map whose keys are unique, and whenever the same name
occurs more than once in the sequence, the map binds it to the value of its
last occurrence. -/
theorem harvest_last_write_wins (cs : List Cookie) :
    ((harvestCookies cs).map Prod.fst).Nodup ∧
    ∀ k, lookupCookie (harvestCookies cs) k = lastCookieValue cs k := by
  constructor
  · exact harvest_fold_nodup cs [] (by simp)
  · intro k
    rw [harvestCookies, harvest_fold_lookup cs [] k]
    rfl

/-- Witness for C8 at a concrete sequence in which the name `a` occurs twice:
the harvested map binds `a` to the value of its last occurrence. -/
theorem harvest_last_write_wins_witness :
    lookupCookie (harvestCookies dupNameCookies) (str "a") =
      lastCookieValue dupNameCookies (str "a") :=
  (harvest_last_write_wins dupNameCookies).2 (str "a")

theorem login_exec_cases (env : LoginEnv) :
    (∀ e, firstFailure env = some e → (login env).1 = Except.error e ∧
      ((login env).2 = ⟨false, false, false⟩ ∨ (login env).2 = ⟨true, true, true⟩)) ∧
    (firstFailure env = none → ∃ cs, env.getCookies = Except.ok cs ∧
      login env = (Except.ok (harvestCookies cs), ⟨true, true, false⟩)) ∧
    (∀ e, env.buildConfig = Except.error e →
      login env = (Except.error e, ⟨false, false, false⟩)) ∧
    (∀ e, env.buildConfig = Except.ok () → env.launch = Except.error e →
      login env = (Except.error (PinterestLoginError.CdpError e), ⟨false, false, false⟩)) ∧
    (env.buildConfig = Except.ok () → env.launch = Except.ok () →
      (login env).2.drainSpawned = true) ∧
    ((login env).2 = ⟨false, false, false⟩ ∨ (login env).2 = ⟨true, true, true⟩ ∨
      (login env).2 = ⟨true, true, false⟩) := by
  obtain ⟨bc, la, si, np, dl, dd, es, gt, wn, fl, sb, ck, gc⟩ := env
  cases bc with
  | error e0 => refine ⟨?_, ?_, ?_, ?_, ?_, ?_⟩ <;>
      simp [login, firstFailure, firstError, loginSteps, cdpStep]
  | ok u =>
    cases u
    cases la with
    | error e0 => refine ⟨?_, ?_, ?_, ?_, ?_, ?_⟩ <;>
        simp [login, firstFailure, firstError, loginSteps, cdpStep]
    | ok u =>
      cases u
      cases si with
      | error e0 => refine ⟨?_, ?_, ?_, ?_, ?_, ?_⟩ <;>
          simp [login, firstFailure, firstError, loginSteps, cdpStep]
      | ok u =>
        cases u
        cases np with
        | error e0 => refine ⟨?_, ?_, ?_, ?_, ?_, ?_⟩ <;>
            simp [login, firstFailure, firstError, loginSteps, cdpStep]
        | ok u =>
          cases u
          cases dl with
          | error e0 => refine ⟨?_, ?_, ?_, ?_, ?_, ?_⟩ <;>
              simp [login, firstFailure, firstError, loginSteps, cdpStep]
          | ok u =>
            cases u
            cases dd with
            | error e0 => refine ⟨?_, ?_, ?_, ?_, ?_, ?_⟩ <;>
                simp [login, firstFailure, firstError, loginSteps, cdpStep]
            | ok u =>
              cases u
              cases es with
              | error e0 => refine ⟨?_, ?_, ?_, ?_, ?_, ?_⟩ <;>
                  simp [login, firstFailure, firstError, loginSteps, cdpStep]
              | ok u =>
                cases u
                cases gt with
                | error e0 => refine ⟨?_, ?_, ?_, ?_, ?_, ?_⟩ <;>
                    simp [login, firstFailure, firstError, loginSteps, cdpStep]
                | ok u =>
                  cases u
                  cases wn with
                  | error e0 => refine ⟨?_, ?_, ?_, ?_, ?_, ?_⟩ <;>
                      simp [login, firstFailure, firstError, loginSteps, cdpStep]
                  | ok u =>
                    cases u
                    cases fl with
                    | error e0 => refine ⟨?_, ?_, ?_, ?_, ?_, ?_⟩ <;>
                        simp [login, firstFailure, firstError, loginSteps, cdpStep]
                    | ok u =>
                      cases u
                      cases sb with
                      | error e0 => refine ⟨?_, ?_, ?_, ?_, ?_, ?_⟩ <;>
                          simp [login, firstFailure, firstError, loginSteps, cdpStep]
                      | ok u =>
                        cases u
                        cases ck with
                        | error e0 => refine ⟨?_, ?_, ?_, ?_, ?_, ?_⟩ <;>
                            simp [login, firstFailure, firstError, loginSteps, cdpStep]
                        | ok u =>
                          cases u
                          cases gc with
                          | error e0 => refine ⟨?_, ?_, ?_, ?_, ?_, ?_⟩ <;>
                              simp [login, firstFailure, firstError, loginSteps, cdpStep]
                          | ok c => refine ⟨?_, ?_, ?_, ?_, ?_, ?_⟩ <;>
                              simp [login, firstFailure, firstError, loginSteps, cdpStep]

theorem firstError_none_mem (l : List (Except PinterestLoginError Unit))
    (h : firstError l = none) : ∀ s ∈ l, s = Except.ok () := by
  induction l with
  | nil => intro s hs; cases hs
  | cons a rest ih =>
    cases a with
    | error e => simp [firstError] at h
    | ok u =>
      cases u
      intro s hs
      rcases List.mem_cons.mp hs with h1 | h1
      · rw [h1]
      · exact ih (by simpa [firstError] using h) s h1

theorem firstFailure_none_checkLogin (env : LoginEnv) (h : firstFailure env = none) :
    env.checkLogin = Except.ok () :=
  firstError_none_mem (loginSteps env) h env.checkLogin (by simp [loginSteps])

/-- C6: `login` returns a cookie map only when every step up to and including
`check_login` succeeded, the map being exactly the harvest of the cookies the
page reported; whenever a step fails, `login` returns that first error and
never a cookie map alongside it. -/
theorem login_no_partial_cookies (env : LoginEnv) :
    (∀ m, (login env).1 = Except.ok m →
      env.checkLogin = Except.ok () ∧
      ∃ cs, env.getCookies = Except.ok cs ∧ m = harvestCookies cs) ∧
    (∀ e, firstFailure env = some e →
      (login env).1 = Except.error e ∧ ∀ m, (login env).1 ≠ Except.ok m) := by
  have h := login_exec_cases env
  constructor
  · intro m hm
    cases hff : firstFailure env with
    | some e =>
      rw [(h.1 e hff).1] at hm
      exact absurd hm (by simp)
    | none =>
      obtain ⟨cs, hcs, hlg⟩ := h.2.1 hff
      refine ⟨firstFailure_none_checkLogin env hff, cs, hcs, ?_⟩
      rw [hlg] at hm
      simpa using hm.symm
  · intro e hff
    refine ⟨(h.1 e hff).1, ?_⟩
    intro m
    rw [(h.1 e hff).1]
    simp

/-- Witness for C6 at a concrete environment in which every step succeeds:
`check_login` succeeded and the returned map is the harvest of the page's
cookie list. -/
theorem login_no_partial_cookies_witness :
    loginEnvAllOk.checkLogin = Except.ok () ∧
    ∃ cs, loginEnvAllOk.getCookies = Except.ok cs ∧
      harvestCookies [⟨str "_pinterest_sess", str "tok"⟩] = harvestCookies cs :=
  (login_no_partial_cookies loginEnvAllOk).1
    (harvestCookies [⟨str "_pinterest_sess", str "tok"⟩]) (by decide)

/-- C2 counterexample: when `browser.start_incognito_context()` fails — the
first call after the drain task is spawned — `login` returns the error while
the drain task is still running: `handle.cancel()` (src/lib.rs line 282) is
only reached on the success path, and dropping the join handle detaches the
task. -/
theorem drain_task_leak_counterexample :
    (login loginEnvIncognitoFails).1 = Except.error (PinterestLoginError.CdpError 3) ∧
    (login loginEnvIncognitoFails).2.drainRunning = true := by
  decide

/-- C2 amended: the drain task is no longer running when `login` returns on
the success path, and it is never spawned at all when the config build or the
browser launch fails; but on every execution where the task was spawned and
`login` then returns an error, the task is still running when `login`
returns. -/
theorem drain_task_lifecycle (env : LoginEnv) :
    (exceptIsOk (login env).1 = true → (login env).2 = ⟨true, true, false⟩) ∧
    (env.buildConfig = Except.ok () → env.launch = Except.ok () →
      exceptIsOk (login env).1 = false → (login env).2 = ⟨true, true, true⟩) ∧
    ((login env).2.drainSpawned = false → (login env).2.drainRunning = false) := by
  have h := login_exec_cases env
  refine ⟨?_, ?_, ?_⟩
  · intro hok
    cases hff : firstFailure env with
    | some e =>
      rw [(h.1 e hff).1] at hok
      simp [exceptIsOk] at hok
    | none =>
      obtain ⟨cs, hcs, hlg⟩ := h.2.1 hff
      rw [hlg]
  · intro hbc hla hnok
    cases hff : firstFailure env with
    | none =>
      obtain ⟨cs, hcs, hlg⟩ := h.2.1 hff
      rw [hlg] at hnok
      simp [exceptIsOk] at hnok
    | some e =>
      have hsp := h.2.2.2.2.1 hbc hla
      rcases (h.1 e hff).2 with h1 | h1
      · rw [h1] at hsp
        exact absurd hsp (by simp)
      · exact h1
  · intro hns
    rcases h.2.2.2.2.2 with h1 | h1 | h1
    · rw [h1]
    · rw [h1] at hns
      exact absurd hns (by simp)
    · rw [h1]

/-- Witness for C2 amended: in the all-success environment, `login` returns
`Ok` and the drain task was spawned, then cancelled before the return. -/
theorem drain_task_lifecycle_witness :
    (login loginEnvAllOk).2 = ⟨true, true, false⟩ :=
  (drain_task_lifecycle loginEnvAllOk).1 (by decide)

/-- C9: when the browser-config build fails, `login` returns the
`BrowserConfigBuildError` produced by the builder, and at that point no
browser was launched, no drain task was spawned, and none is running. -/
theorem config_build_error_no_resources (env : LoginEnv) (msg : Str)
    (h : env.buildConfig = build_browser_config (Except.error msg)) :
    (login env).1 = Except.error (PinterestLoginError.BrowserConfigBuildError msg) ∧
    (login env).2.browserLaunched = false ∧
    (login env).2.drainSpawned = false ∧
    (login env).2.drainRunning = false := by
  have hb : env.buildConfig =
      Except.error (PinterestLoginError.BrowserConfigBuildError msg) := h
  have hl := (login_exec_cases env).2.2.1
    (PinterestLoginError.BrowserConfigBuildError msg) hb
  rw [hl]
  exact ⟨rfl, rfl, rfl, rfl⟩

/-- Witness for C9 at a concrete environment whose config build fails with
message `"invalid config"`. -/
theorem config_build_error_no_resources_witness :
    (login loginEnvBadConfig).1 =
      Except.error (PinterestLoginError.BrowserConfigBuildError (str "invalid config")) ∧
    (login loginEnvBadConfig).2.browserLaunched = false ∧
    (login loginEnvBadConfig).2.drainSpawned = false ∧
    (login loginEnvBadConfig).2.drainRunning = false :=
  config_build_error_no_resources loginEnvBadConfig (str "invalid config") (by decide)

/-- C10: the `debug_assert_eq!(cookies.capacity(), MAP_CAPACITY)` after the
harvest holds for every cookie sequence whose insertion keeps the map within
the 7 initially reserved entries, and it fails on sequences with more than 7
distinct names — e.g. 8 distinct cookies grow the map to capacity 14. -/
theorem cookie_capacity_assert (cs : List Cookie) :
    ((harvestCookies cs).length ≤ 7 →
      cookieMapCapacityAfter (harvestCookies cs).length = 7) ∧
    (7 < (harvestCookies eightDistinctCookies).length ∧
      cookieMapCapacityAfter (harvestCookies eightDistinctCookies).length ≠ 7) := by
  constructor
  · intro h
    cases hn : (harvestCookies cs).length with
    | zero => rfl
    | succ k =>
      rw [hn] at h
      simp [cookieMapCapacityAfter, capGrow, h]
  · exact ⟨by decide, by decide⟩

/-- Witness for C10: one harvested cookie keeps the map within the reserved
capacity, so the assertion holds. -/
theorem cookie_capacity_assert_witness :
    cookieMapCapacityAfter (harvestCookies [⟨str "a", str "1"⟩]).length = 7 :=
  (cookie_capacity_assert [⟨str "a", str "1"⟩]).1 (by decide)

end PinterestLogin
